import Mathlib

/-!
Verification development for the TFT-feather environmental-metrics agent
(`code.py`): a CircuitPython program that reads a BME680 and an SCD4X sensor
over a shared I2C bus, serves the readings as Prometheus exposition text on
HTTP GET /metrics, refreshes a small display, and periodically re-discovers
the sensors.

The embedding below translates the relevant parts of the source:
  - class SensorMetric and the label-dict mutation performed by the reads;
  - I2CSensorsManager with its cached metric lists `_bme680_metrics` /
    `_scd4x_metrics` and timestamp `_bme680_last_measurement_time`;
  - read_bme680 / read_scd4x / read_metrics, with driver interactions
    (success values, data-not-ready, raised exceptions) passed in as
    explicit outcome parameters;
  - metrics_handler (the /metrics response text builder);
  - the main while-True scheduler tick (discovery timer, display-refresh
    phase with its fault handling, supervisor.reload on time faults).

Python float values are modelled as exact rationals; monotonic clock
readings are rational parameters.  Each string the Python code appends via
`response_text += ...` becomes one parenthesised appended chunk.
-/

set_option maxRecDepth 40000

/-- Python dict with string keys and string values; insertion order is
significant, as in CPython. -/
abbrev Labels := List (String × String)

/-- Source class `SensorMetric(name, description, type, value, labels)`;
`labels` defaults to the empty dict. -/
structure SensorMetric where
  name : String
  description : String
  type : String
  value : ℚ
  labels : Labels
deriving DecidableEq

/-- Python dict item assignment `d[k] = v`: if the key is present its value
is updated in place (position preserved), otherwise the new pair is appended
at the end. -/
def setLabel (ls : Labels) (k v : String) : Labels :=
  if ls.any (fun p => p.1 == k) then ls.map (fun p => if p.1 = k then (k, v) else p)
  else ls ++ [(k, v)]

/-- The in-place mutation `metric.labels["sensor_type"] = st` performed on an
already-constructed SensorMetric at the end of read_bme680 / read_scd4x. -/
def addSensorTypeLabel (st : String) (m : SensorMetric) : SensorMetric :=
  { m with labels := setLabel m.labels "sensor_type" st }

/-- One successful set of BME680 driver property reads. -/
structure BMEReading where
  temperature : ℚ
  relative_humidity : ℚ
  pressure : ℚ
  gas : ℚ
deriving DecidableEq

/-- Outcome of one SCD4X driver interaction: `data_ready` false, a successful
read of CO2/temperature/humidity, or an exception raised anywhere in the
`try` block (including while reading `data_ready` itself). -/
inductive SCDAttempt where
  | notReady : SCDAttempt
  | ready (co2 temperature relative_humidity : ℚ) : SCDAttempt
  | fault (e : String) : SCDAttempt
deriving DecidableEq

/-- State of I2CSensorsManager.  `bme680` / `scd4x` record whether the driver
objects are non-None.  `bme680_metrics` is `none` while the attribute
`_bme680_metrics` does not exist yet (it is only ever created by a successful
read, and `init()` does not clear it); `scd4x_metrics` is set to `[]` by
`init()`. -/
structure ManagerState where
  bme680 : Bool
  scd4x : Bool
  scd4x_serial_number : String
  bme680_last_measurement_time : ℚ
  bme680_metrics : Option (List SensorMetric)
  scd4x_metrics : List SensorMetric
deriving DecidableEq

/-- `I2CSensorsManager.init()` (also run after `deinit()` on re-discovery):
independently attempts both drivers, reads the SCD4X serial number on success
(empty string on failure), resets `_bme680_last_measurement_time` to 0 and
`_scd4x_metrics` to `[]`.  The `_bme680_metrics` attribute is not touched, so
a previous incarnation's cache persists across re-discovery. -/
def manager_init (bmeOk scdOk : Bool) (serial : String)
    (prevBmeMetrics : Option (List SensorMetric)) : ManagerState :=
  { bme680 := bmeOk
    scd4x := scdOk
    scd4x_serial_number := if scdOk then serial else ""
    bme680_last_measurement_time := 0
    bme680_metrics := prevBmeMetrics
    scd4x_metrics := [] }

/-- `I2CSensorsManager.read_bme680`, with the monotonic clock value `t` and
the driver outcome passed explicitly.  The timestamp is written before the
sensor properties are read, so it is updated even when the read faults.  On a
fault the cached list is shallow-copied, the error metric appended to the
copy, and the `sensor_type` label written onto every metric object in the
returned list (which mutates the cached objects' label dicts as well, hence
the `Option.map` on the stored cache). -/
def read_bme680 (s : ManagerState) (t : ℚ) (attempt : Except String BMEReading) :
    List SensorMetric × ManagerState :=
  if s.bme680 then
    match attempt with
    | .ok r =>
        let fresh : List SensorMetric :=
          [ ⟨"sensor_temperature_celsius", "Temperature in Celsius", "gauge", r.temperature, []⟩
          , ⟨"sensor_humidity_percent", "Relative humidity in percent", "gauge", r.relative_humidity, []⟩
          , ⟨"sensor_pressure_hpa", "Pressure in hectopascal", "gauge", r.pressure, []⟩
          , ⟨"sensor_gas_ohms", "Gas resistance in ohms", "gauge", r.gas, []⟩
          , ⟨"last_measurement_time", "Last measurement time", "gauge", t, []⟩
          , ⟨"sensor_info", "Sensor info", "gauge", 1, [("sensor_name", "BME680")]⟩ ]
        let labelled := fresh.map (addSensorTypeLabel "bme680")
        (labelled,
         { s with bme680_last_measurement_time := t, bme680_metrics := some labelled })
    | .error e =>
        let cached := (s.bme680_metrics.getD []).map (addSensorTypeLabel "bme680")
        let errMetric := addSensorTypeLabel "bme680"
          ⟨"sensor_is_error", "Error: " ++ e, "gauge", 1, []⟩
        (cached ++ [errMetric],
         { s with bme680_last_measurement_time := t,
                  bme680_metrics := s.bme680_metrics.map (List.map (addSensorTypeLabel "bme680")) })
  else ([], s)

/-- `I2CSensorsManager.read_scd4x`, with the monotonic clock value `t` and
the driver outcome passed explicitly.  When `data_ready` is false the cached
list itself is returned (no copy, no error metric); on a fault the cache is
shallow-copied and the error metric appended to the copy.  In every branch
the `sensor_type` label is then written onto each returned metric object. -/
def read_scd4x (s : ManagerState) (t : ℚ) (attempt : SCDAttempt) :
    List SensorMetric × ManagerState :=
  if s.scd4x then
    match attempt with
    | .ready co2 temp hum =>
        let fresh : List SensorMetric :=
          [ ⟨"sensor_co2_ppm", "CO2 in parts per million", "gauge", co2, []⟩
          , ⟨"sensor_temperature_celsius", "Temperature in Celsius", "gauge", temp, []⟩
          , ⟨"sensor_humidity_percent", "Relative humidity in percent", "gauge", hum, []⟩
          , ⟨"last_measurement_time", "Last measurement time", "gauge", t, []⟩
          , ⟨"sensor_info", "Sensor info", "gauge", 1,
              [("sensor_name", "SCD4X"), ("serial_number", s.scd4x_serial_number)]⟩ ]
        let labelled := fresh.map (addSensorTypeLabel "scd4x")
        (labelled, { s with scd4x_metrics := labelled })
    | .notReady =>
        let cached := s.scd4x_metrics.map (addSensorTypeLabel "scd4x")
        (cached, { s with scd4x_metrics := cached })
    | .fault e =>
        let cached := s.scd4x_metrics.map (addSensorTypeLabel "scd4x")
        let errMetric := addSensorTypeLabel "scd4x"
          ⟨"sensor_is_error", "Error: " ++ e, "gauge", 1, []⟩
        (cached ++ [errMetric], { s with scd4x_metrics := cached })
  else ([], s)

/-- `I2CSensorsManager.read_metrics`: BME680 result concatenated with SCD4X
result. -/
def read_metrics (s : ManagerState) (tB : ℚ) (aB : Except String BMEReading)
    (tS : ℚ) (aS : SCDAttempt) : List SensorMetric × ManagerState :=
  let b := read_bme680 s tB aB
  let c := read_scd4x b.2 tS aS
  (b.1 ++ c.1, c.2)

/-- Render a nonnegative integer `n`, interpreted as a value scaled by
`10 ^ d`, as a fixed-point decimal string with `d` digits after the point. -/
def natFixed (d n : Nat) : String :=
  if d = 0 then toString n
  else
    let fracDigits := toString (n % 10 ^ d)
    toString (n / 10 ^ d) ++ "." ++
      String.mk (List.replicate (d - fracDigits.length) '0') ++ fracDigits

/-- C-style `"%0.<d>f"` fixed-point formatting of an exact rational value:
the value is scaled by `10 ^ d` and rounded to the nearest integer (half
away from zero resolved upward, which agrees with printf on all values that
are exact at `d` decimals). -/
def fmtFixed (d : Nat) (q : ℚ) : String :=
  let scaled : ℤ := Int.fdiv (2 * q.num * (10 : ℤ) ^ d + (q.den : ℤ)) (2 * (q.den : ℤ))
  if scaled < 0 then "-" ++ natFixed d scaled.natAbs else natFixed d scaled.natAbs

/-- Label rendering in metrics_handler:
`", ".join([f'{k}="{v}"' for k, v in metric.labels.items()])`. -/
def renderLabels (ls : Labels) : String :=
  String.intercalate ", " (ls.map fun p => p.1 ++ "=\"" ++ p.2 ++ "\"")

/-- The per-measurement loop of metrics_handler: for each metric, in input
order, append the HELP line, the TYPE line and the sample line
(`"%s\x7b%s\x7d %0.3f\n"`) to the response text. -/
def expositionLines (metrics : List SensorMetric) : String :=
  metrics.foldl
    (fun acc m =>
      acc ++ ("# HELP " ++ m.name ++ " " ++ m.description ++ "\n")
          ++ ("# TYPE " ++ m.name ++ " " ++ m.type ++ "\n")
          ++ (m.name ++ "\x7b" ++ renderLabels m.labels ++ "\x7d " ++ fmtFixed 3 m.value ++ "\n"))
    ""

/-- One entry of `microcontroller.cpus`. -/
structure CpuInfo where
  temperature : ℚ
  frequency : ℤ
deriving DecidableEq

/-- The per-cpu loop of metrics_handler: temperature is rendered with
`%0.1f` and frequency with `%d`; the HELP text typo "TemperatuPre" is
verbatim from the source. -/
def cpuLines (cpus : List CpuInfo) : String :=
  (cpus.enum).foldl
    (fun acc p =>
      acc ++ ("# HELP microcontroller_cpu_temperature_celsius TemperatuPre in Celsius\n")
          ++ ("# TYPE microcontroller_cpu_temperature_celsius gauge\n")
          ++ ("microcontroller_cpu_temperature_celsius\x7bcpu=\"" ++ toString p.1 ++ "\"\x7d "
              ++ fmtFixed 1 p.2.temperature ++ "\n")
          ++ ("# HELP microcontroller_cpu_frequency_hz Frequency in hertz\n")
          ++ ("# TYPE microcontroller_cpu_frequency_hz gauge\n")
          ++ ("microcontroller_cpu_frequency_hz\x7bcpu=\"" ++ toString p.1 ++ "\"\x7d "
              ++ toString p.2.frequency ++ "\n"))
    ""

/-- Main-loop tick delay, seconds. -/
def MAIN_LOOP_DELAY : ℚ := 1 / 10

/-- Display refresh period, seconds. -/
def DISPLAY_UPDATE_INTERVAL : ℚ := 10

/-- Sensor re-discovery period, seconds. -/
def DISCOVERY_PERIOD : ℚ := 360

/-- The /metrics response body built by metrics_handler.  Parameters stand
for the ambient values the handler reads: the sensor metric list produced by
`read_metrics`, the elapsed measurement time, the `microcontroller.cpus`
list, the module-level timer globals, the current monotonic time, and the
already-stringified device-info label values (the handler re-raises on a
missing accessor before this point, a path not taken here). -/
def metrics_handler_text (metrics : List SensorMetric) (measurement_time : ℚ)
    (cpus : List CpuInfo) (last_discovery_time now last_screen_update_time : ℚ)
    (info_labels : Labels) : String :=
  expositionLines metrics
  ++ ("# HELP microcontroller_measurement_time_seconds Time to measure metrics in seconds\n")
  ++ ("# TYPE microcontroller_measurement_time_seconds gauge\n")
  ++ ("microcontroller_measurement_time_seconds " ++ fmtFixed 3 measurement_time ++ "\n")
  ++ cpuLines cpus
  ++ ("# HELP microcontroller_last_discovery_time_seconds Last discovery time in seconds\n")
  ++ ("# TYPE microcontroller_last_discovery_time_seconds gauge\n")
  ++ ("microcontroller_last_discovery_time_seconds " ++ fmtFixed 3 last_discovery_time ++ "\n")
  ++ ("# HELP microcontroller_next_discovery_time_seconds Next discovery time in seconds\n")
  ++ ("# TYPE microcontroller_next_discovery_time_seconds gauge\n")
  ++ ("microcontroller_next_discovery_time_seconds "
      ++ fmtFixed 3 (DISCOVERY_PERIOD - (now - last_discovery_time)) ++ "\n")
  ++ ("# HELP microcontroller_last_screen_update_time_seconds Last screen update time in seconds\n")
  ++ ("# TYPE microcontroller_last_screen_update_time_seconds gauge\n")
  ++ ("microcontroller_last_screen_update_time_seconds "
      ++ fmtFixed 3 last_screen_update_time ++ "\n")
  ++ ("# HELP microcontroller_info Microcontroller info\n")
  ++ ("# TYPE microcontroller_info gauge\n")
  ++ ("microcontroller_info\x7b" ++ renderLabels info_labels ++ "\x7d 1\n")

/-- Scheduler state owned by the main loop: the two module-level timers and
the sensor manager singleton. -/
structure SchedState where
  last_discovery_time : ℚ
  last_screen_update_time : ℚ
  manager : ManagerState
deriving DecidableEq

/-- Ambient inputs of one main-loop iteration: the monotonic time read at
the top, the outcomes the drivers would give if re-discovery runs, whether
the display-value update (`update_bme680` / `update_scd4x`) raises, and
whether `update_time` raises one of the exception kinds its handler catches
(ValueError, RuntimeError, OSError, ConnectionError). -/
structure TickEnv where
  current_time : ℚ
  bmeInitOk : Bool
  scdInitOk : Bool
  scdSerial : String
  displayFault : Bool
  timeFault : Bool
deriving DecidableEq

/-- Observable outcome of one main-loop iteration: the scheduler state at
the end of the iteration, whether sensor re-discovery (deinit + init) ran,
whether the display sensor-value update completed, and whether
`supervisor.reload()` was invoked. -/
structure TickResult where
  state : SchedState
  discoveryRan : Bool
  displayUpdated : Bool
  reloaded : Bool
deriving DecidableEq

/-- The display-refresh phase and end of the loop body, after the discovery
check.  A fault in `update_bme680` / `update_scd4x` is swallowed by
`except (Exception, RuntimeError): pass`; a caught fault in `update_time`
calls `supervisor.reload()` and `continue`s, skipping the screen-timer
update. -/
def tickDisplayPhase (s : SchedState) (env : TickEnv) (ran : Bool) : TickResult :=
  if env.current_time - s.last_screen_update_time > DISPLAY_UPDATE_INTERVAL then
    let attempted := s.manager.bme680 || s.manager.scd4x
    if env.timeFault then
      { state := s, discoveryRan := ran,
        displayUpdated := attempted && !env.displayFault, reloaded := true }
    else
      { state := { s with last_screen_update_time := env.current_time },
        discoveryRan := ran,
        displayUpdated := attempted && !env.displayFault, reloaded := false }
  else
    { state := s, discoveryRan := ran, displayUpdated := false, reloaded := false }

/-- One iteration of the `while True` main loop: re-discovery when the
elapsed time strictly exceeds DISCOVERY_PERIOD (resetting the timer), then
the non-blocking server poll (whose OSError handler changes no scheduler
state), then the display-refresh phase, sleep and watchdog feed. -/
def tick (s : SchedState) (env : TickEnv) : TickResult :=
  if env.current_time - s.last_discovery_time > DISCOVERY_PERIOD then
    tickDisplayPhase
      { s with
          manager := manager_init env.bmeInitOk env.scdInitOk env.scdSerial
            s.manager.bme680_metrics
          last_discovery_time := env.current_time }
      env true
  else
    tickDisplayPhase s env false

/-- Number of occurrences of `pat` as a contiguous sublist, counted at every
start position. -/
def countOccChars (pat : List Char) : List Char → Nat
  | [] => 0
  | c :: rest => (if pat.isPrefixOf (c :: rest) then 1 else 0) + countOccChars pat rest

/-- Number of occurrences of the pattern as a substring of `s`. -/
def countOcc (pat s : String) : Nat := countOccChars pat.data s.data

/-- Python dict lookup `d[k]` on the label map (first — and, for dicts
built by the program, only — entry with the given key). -/
def getLabel : Labels → String → Option String
  | [], _ => none
  | p :: ps, k => if p.1 = k then some p.2 else getLabel ps k

/-! Shared helper lemmas. -/

theorem map_fixes_of_mem {α : Type} (f : α → α) :
    ∀ l : List α, (∀ x ∈ l, f x = x) → l.map f = l := by
  intro l h
  induction l with
  | nil => rfl
  | cons x t ih =>
    simp only [List.map_cons]
    rw [h x (by simp), ih (fun y hy => h y (by simp [hy]))]

theorem countOccChars_append_ge (pat xs ys : List Char) :
    countOccChars pat xs + countOccChars pat ys ≤ countOccChars pat (xs ++ ys) := by
  induction xs with
  | nil => simp [countOccChars]
  | cons c t ih =>
    have hmono : (if pat.isPrefixOf (c :: t) then 1 else 0) ≤
        (if pat.isPrefixOf (c :: (t ++ ys)) then (1 : ℕ) else 0) := by
      by_cases h : pat.isPrefixOf (c :: t) = true
      · have h2 : pat.isPrefixOf (c :: (t ++ ys)) = true := by
          rw [List.isPrefixOf_iff_prefix] at h ⊢
          exact h.trans (List.prefix_append (c :: t) ys)
        rw [if_pos h, if_pos h2]
      · rw [if_neg h]
        exact Nat.zero_le _
    have hL : countOccChars pat (c :: t) =
        (if pat.isPrefixOf (c :: t) then 1 else 0) + countOccChars pat t := rfl
    have hR : countOccChars pat ((c :: t) ++ ys) =
        (if pat.isPrefixOf (c :: (t ++ ys)) then 1 else 0) + countOccChars pat (t ++ ys) := rfl
    rw [hL, hR]
    omega

theorem countOcc_append_ge (pat a b : String) :
    countOcc pat a + countOcc pat b ≤ countOcc pat (a ++ b) := by
  simp only [countOcc, String.data_append]
  exact countOccChars_append_ge pat.data a.data b.data

theorem countOcc_le_append_left (pat a b : String) :
    countOcc pat a ≤ countOcc pat (a ++ b) :=
  le_trans (Nat.le_add_right _ _) (countOcc_append_ge pat a b)

theorem countOcc_le_append_right (pat a b : String) :
    countOcc pat b ≤ countOcc pat (a ++ b) :=
  le_trans (Nat.le_add_left _ _) (countOcc_append_ge pat a b)


theorem getLabel_map_set {ls : Labels} {k v : String}
    (h : ls.any (fun p => p.1 == k) = true) :
    getLabel (ls.map fun p => if p.1 = k then (k, v) else p) k = some v := by
  induction ls with
  | nil => simp at h
  | cons p ps ih =>
    by_cases hp : p.1 = k
    · simp [hp, getLabel]
    · simp only [List.any_cons, Bool.or_eq_true, beq_iff_eq] at h
      rcases h with h | h
      · exact absurd h hp
      · simp only [List.map_cons, if_neg hp, getLabel]
        exact ih h

theorem getLabel_append_last {ls : Labels} {k v : String}
    (h : ls.any (fun p => p.1 == k) = false) :
    getLabel (ls ++ [(k, v)]) k = some v := by
  induction ls with
  | nil => simp [getLabel]
  | cons p ps ih =>
    simp only [List.any_cons, Bool.or_eq_false_iff, beq_eq_false_iff_ne, ne_eq] at h
    simp only [List.cons_append, getLabel, if_neg h.1]
    exact ih h.2

theorem getLabel_setLabel (ls : Labels) (k v : String) :
    getLabel (setLabel ls k v) k = some v := by
  unfold setLabel
  by_cases h : ls.any (fun p => p.1 == k) = true
  · rw [if_pos h]; exact getLabel_map_set h
  · rw [if_neg h]
    exact getLabel_append_last (by simp only [Bool.not_eq_true] at h; exact h)

theorem getLabel_addSensorTypeLabel (st : String) (m : SensorMetric) :
    getLabel (addSensorTypeLabel st m).labels "sensor_type" = some st :=
  getLabel_setLabel m.labels "sensor_type" st

theorem read_bme680_result_shape (s : ManagerState) (t : ℚ)
    (attempt : Except String BMEReading) :
    ∃ pre : List SensorMetric,
      (read_bme680 s t attempt).1 = pre.map (addSensorTypeLabel "bme680") := by
  unfold read_bme680
  by_cases hb : s.bme680 = true
  · rw [if_pos hb]
    cases attempt with
    | ok r => exact ⟨_, rfl⟩
    | error e =>
        refine ⟨s.bme680_metrics.getD [] ++
          [⟨"sensor_is_error", "Error: " ++ e, "gauge", 1, []⟩], ?_⟩
        simp [List.map_append]
  · rw [if_neg hb]; exact ⟨[], rfl⟩

theorem read_scd4x_result_shape (s : ManagerState) (t : ℚ) (attempt : SCDAttempt) :
    ∃ pre : List SensorMetric,
      (read_scd4x s t attempt).1 = pre.map (addSensorTypeLabel "scd4x") := by
  unfold read_scd4x
  by_cases hs : s.scd4x = true
  · rw [if_pos hs]
    cases attempt with
    | ready co2 temp hum => exact ⟨_, rfl⟩
    | notReady => exact ⟨_, rfl⟩
    | fault e =>
        refine ⟨s.scd4x_metrics ++
          [⟨"sensor_is_error", "Error: " ++ e, "gauge", 1, []⟩], ?_⟩
        simp [List.map_append]
  · rw [if_neg hs]; exact ⟨[], rfl⟩

theorem foldl_append3 (f g h : SensorMetric → String) :
    ∀ (ms : List SensorMetric) (a : String),
      List.foldl (fun acc m => acc ++ f m ++ g m ++ h m) a ms =
        a ++ List.foldr (fun m acc => f m ++ g m ++ h m ++ acc) "" ms := by
  intro ms
  induction ms with
  | nil => intro a; simp
  | cons m t ih =>
    intro a
    rw [List.foldl_cons, ih]
    simp only [List.foldr_cons, String.append_assoc]

/-- C6: for every input sequence of measurements, the exporter emits, per
Measurement in input order, a HELP line, then a TYPE line, then one sample
line whose labels are rendered in insertion order; an empty label map
contributes nothing between the braces of the sample line. -/
theorem c6_exposition_per_measurement_in_order (metrics : List SensorMetric) :
    expositionLines metrics =
      List.foldr
        (fun m acc =>
          ("# HELP " ++ m.name ++ " " ++ m.description ++ "\n")
          ++ ("# TYPE " ++ m.name ++ " " ++ m.type ++ "\n")
          ++ (m.name ++ "\x7b"
              ++ String.intercalate ", " (m.labels.map fun p => p.1 ++ "=\"" ++ p.2 ++ "\"")
              ++ "\x7d " ++ fmtFixed 3 m.value ++ "\n")
          ++ acc)
        "" metrics ∧
    renderLabels [] = "" := by
  refine ⟨?_, rfl⟩
  have h3 := foldl_append3
    (fun m => "# HELP " ++ m.name ++ " " ++ m.description ++ "\n")
    (fun m => "# TYPE " ++ m.name ++ " " ++ m.type ++ "\n")
    (fun m => m.name ++ "\x7b"
      ++ String.intercalate ", " (m.labels.map fun p => p.1 ++ "=\"" ++ p.2 ++ "\"")
      ++ "\x7d " ++ fmtFixed 3 m.value ++ "\n")
    metrics ""
  simp only [expositionLines, renderLabels]
  exact h3.trans (String.empty_append _)

/-- C7: every measurement returned by a sensor slot's read — fresh, cached,
and the synthetic sensor_is_error measurement alike — carries a sensor_type
label identifying its origin sensor ("bme680" or "scd4x"); the label is
applied uniformly to the whole result after per-sensor construction. -/
theorem c7_sensor_type_label_on_every_result_metric
    (s : ManagerState) (t u : ℚ) (aB : Except String BMEReading) (aS : SCDAttempt) :
    (∀ m ∈ (read_bme680 s t aB).1, getLabel m.labels "sensor_type" = some "bme680") ∧
    (∀ m ∈ (read_scd4x s u aS).1, getLabel m.labels "sensor_type" = some "scd4x") := by
  constructor
  · intro m hm
    obtain ⟨pre, hpre⟩ := read_bme680_result_shape s t aB
    rw [hpre] at hm
    obtain ⟨m0, _, rfl⟩ := List.mem_map.mp hm
    exact getLabel_addSensorTypeLabel _ _
  · intro m hm
    obtain ⟨pre, hpre⟩ := read_scd4x_result_shape s u aS
    rw [hpre] at hm
    obtain ⟨m0, _, rfl⟩ := List.mem_map.mp hm
    exact getLabel_addSensorTypeLabel _ _

theorem c7_witness :
    getLabel [("sensor_type", "bme680")] "sensor_type" = some "bme680" := by
  have h := (c7_sensor_type_label_on_every_result_metric
    (manager_init true true "f00d" none) 5 6 (.ok ⟨21, 45, 1012, 100⟩) .notReady).1
  exact h ⟨"sensor_temperature_celsius", "Temperature in Celsius", "gauge", 21,
    [("sensor_type", "bme680")]⟩ (by decide)

/-- C8: when the SCD4X driver is present and reports data-not-ready, the
slot's read returns the previously cached measurement set unchanged and
appends no error measurement; the manager state is untouched.  `hlab`
records the invariant that cached metrics already carry their sensor_type
label, which holds of every cache the program stores. -/
theorem c8_not_ready_returns_cache_unchanged
    (s : ManagerState) (t : ℚ) (hs : s.scd4x = true)
    (hlab : ∀ m ∈ s.scd4x_metrics, addSensorTypeLabel "scd4x" m = m) :
    (read_scd4x s t .notReady).1 = s.scd4x_metrics ∧
    (read_scd4x s t .notReady).2 = s := by
  have hmap := map_fixes_of_mem (addSensorTypeLabel "scd4x") s.scd4x_metrics hlab
  obtain ⟨b, sc, sn, tm, bm, sm⟩ := s
  constructor <;> simp_all [read_scd4x]

theorem c8_witness :
    (read_scd4x
      ⟨true, true, "f00d", 5,
        some [⟨"sensor_temperature_celsius", "Temperature in Celsius", "gauge", 21,
          [("sensor_type", "bme680")]⟩],
        [⟨"sensor_co2_ppm", "CO2 in parts per million", "gauge", 612,
          [("sensor_type", "scd4x")]⟩]⟩ 9 .notReady).1 =
      [⟨"sensor_co2_ppm", "CO2 in parts per million", "gauge", 612,
        [("sensor_type", "scd4x")]⟩] := by
  exact (c8_not_ready_returns_cache_unchanged _ 9 (by decide) (by decide)).1

/-- C1: when a read attempt of a present sensor slot faults, the slot's read
returns the cached last-good measurement set verbatim (empty when no read
has ever succeeded, since `getD` defaults to the empty list) plus exactly
one appended sensor_is_error measurement with value 1 whose description
carries the fault text, and the cached set itself is left unchanged — the
error entry is never added to the cache.  `hlabB`/`hlabS` record the
invariant that cached metrics already carry their sensor_type label, which
holds of every cache the program stores because caches are only ever written
by reads, after labelling. -/
theorem c1_read_fault_serves_cached_set_plus_error
    (s : ManagerState) (t u : ℚ) (e f : String)
    (hb : s.bme680 = true) (hs : s.scd4x = true)
    (hlabB : ∀ m ∈ s.bme680_metrics.getD [], addSensorTypeLabel "bme680" m = m)
    (hlabS : ∀ m ∈ s.scd4x_metrics, addSensorTypeLabel "scd4x" m = m) :
    ((read_bme680 s t (.error e)).1 =
        s.bme680_metrics.getD [] ++
          [⟨"sensor_is_error", "Error: " ++ e, "gauge", 1, [("sensor_type", "bme680")]⟩] ∧
      (read_bme680 s t (.error e)).2.bme680_metrics = s.bme680_metrics) ∧
    ((read_scd4x s u (.fault f)).1 =
        s.scd4x_metrics ++
          [⟨"sensor_is_error", "Error: " ++ f, "gauge", 1, [("sensor_type", "scd4x")]⟩] ∧
      (read_scd4x s u (.fault f)).2.scd4x_metrics = s.scd4x_metrics) := by
  have hmapB := map_fixes_of_mem (addSensorTypeLabel "bme680") (s.bme680_metrics.getD []) hlabB
  have hmapS := map_fixes_of_mem (addSensorTypeLabel "scd4x") s.scd4x_metrics hlabS
  have hoptB : s.bme680_metrics.map (List.map (addSensorTypeLabel "bme680")) = s.bme680_metrics := by
    cases hbm : s.bme680_metrics with
    | none => rfl
    | some l =>
      rw [hbm] at hmapB
      simpa using hmapB
  refine ⟨⟨?_, ?_⟩, ⟨?_, ?_⟩⟩ <;>
    simp [read_bme680, read_scd4x, hb, hs, hmapB, hmapS, hoptB, addSensorTypeLabel, setLabel]

theorem c1_witness :
    ((read_bme680
        ⟨true, true, "f00d", 5,
          some [⟨"sensor_temperature_celsius", "Temperature in Celsius", "gauge", 21,
            [("sensor_type", "bme680")]⟩],
          []⟩ 7 (.error "boom")).1 =
      [ ⟨"sensor_temperature_celsius", "Temperature in Celsius", "gauge", 21,
          [("sensor_type", "bme680")]⟩
      , ⟨"sensor_is_error", "Error: boom", "gauge", 1, [("sensor_type", "bme680")]⟩ ]) ∧
    ((read_scd4x
        ⟨true, true, "f00d", 5,
          some [⟨"sensor_temperature_celsius", "Temperature in Celsius", "gauge", 21,
            [("sensor_type", "bme680")]⟩],
          []⟩ 8 (.fault "nack")).1 =
      [⟨"sensor_is_error", "Error: nack", "gauge", 1, [("sensor_type", "scd4x")]⟩]) := by
  have h := c1_read_fault_serves_cached_set_plus_error
    ⟨true, true, "f00d", 5,
      some [⟨"sensor_temperature_celsius", "Temperature in Celsius", "gauge", 21,
        [("sensor_type", "bme680")]⟩],
      []⟩ 7 8 "boom" "nack" (by decide) (by decide) (by decide) (by decide)
  exact ⟨h.1.1, h.2.1⟩

/-- C10: a faulting BME680 read still advances the manager's stored
`_bme680_last_measurement_time` — the timestamp is written before the sensor
properties are read and is not restored on failure — so after a fault the
stored timestamp (the new clock value) no longer matches the
last_measurement_time metric inside the returned cached set (which still
holds the clock value of the last successful read). -/
theorem c10_fault_advances_timestamp_despite_cached_metric
    (s0 : ManagerState) (r : BMEReading) (t0 t1 : ℚ) (e : String)
    (hb : s0.bme680 = true) (hne : t1 ≠ t0) :
    (read_bme680 ((read_bme680 s0 t0 (.ok r)).2) t1 (.error e)).2.bme680_last_measurement_time
        = t1 ∧
    (⟨"last_measurement_time", "Last measurement time", "gauge", t0,
        [("sensor_type", "bme680")]⟩ : SensorMetric)
      ∈ (read_bme680 ((read_bme680 s0 t0 (.ok r)).2) t1 (.error e)).1 ∧
    (read_bme680 ((read_bme680 s0 t0 (.ok r)).2) t1 (.error e)).2.bme680_last_measurement_time
        ≠ t0 := by
  refine ⟨?_, ?_, ?_⟩ <;>
    simp [read_bme680, hb, hne, addSensorTypeLabel, setLabel]

theorem tickDisplayPhase_fields (s : SchedState) (env : TickEnv) (ran : Bool) :
    (tickDisplayPhase s env ran).discoveryRan = ran ∧
    (tickDisplayPhase s env ran).state.last_discovery_time = s.last_discovery_time ∧
    (tickDisplayPhase s env ran).state.manager = s.manager := by
  unfold tickDisplayPhase
  by_cases h1 : env.current_time - s.last_screen_update_time > DISPLAY_UPDATE_INTERVAL
  · rw [if_pos h1]
    cases env.timeFault <;> simp
  · rw [if_neg h1]
    simp

/-- C3 counterexample: a display-subsystem fault during the scheduled
display-refresh phase is NOT treated as fatal.  With both sensors present,
the display value update raising and the time update succeeding, the tick
completes without a supervisor reload: the display is simply not updated and
the screen timer is reset as on a normal tick — local recovery, not a
restart. -/
theorem c3_counterexample :
    (tick ⟨0, 0, manager_init true true "f00d" none⟩
        ⟨20, true, true, "f00d", true, false⟩).reloaded = false ∧
    (tick ⟨0, 0, manager_init true true "f00d" none⟩
        ⟨20, true, true, "f00d", true, false⟩).displayUpdated = false ∧
    (tick ⟨0, 0, manager_init true true "f00d" none⟩
        ⟨20, true, true, "f00d", true, false⟩).state.last_screen_update_time = 20 := by
  refine ⟨?_, ?_, ?_⟩ <;>
    norm_num [tick, tickDisplayPhase, manager_init, DISCOVERY_PERIOD, DISPLAY_UPDATE_INTERVAL]

/-- C3 amended: during the scheduled display-refresh phase, only a fault in
the time subsystem (of the exception kinds the handler catches) is fatal for
the process — it triggers a supervisor reload and leaves the screen timer
untouched.  A fault in the display value update is swallowed locally (the
`except ...: pass` handler) and the tick continues, resetting the screen
timer, whatever the display outcome was. -/
theorem c3_only_time_fault_reloads (s : SchedState) (env : TickEnv)
    (hdue : env.current_time - s.last_screen_update_time > DISPLAY_UPDATE_INTERVAL) :
    (tick s env).reloaded = env.timeFault ∧
    (env.timeFault = true →
      (tick s env).state.last_screen_update_time = s.last_screen_update_time) ∧
    (env.timeFault = false →
      (tick s env).state.last_screen_update_time = env.current_time) := by
  unfold tick
  by_cases hd : env.current_time - s.last_discovery_time > DISCOVERY_PERIOD
  · rw [if_pos hd]
    unfold tickDisplayPhase
    rw [if_pos (by simpa using hdue)]
    cases ht : env.timeFault <;> simp
  · rw [if_neg hd]
    unfold tickDisplayPhase
    rw [if_pos hdue]
    cases ht : env.timeFault <;> simp

theorem c3_witness :
    (tick ⟨0, 0, manager_init true true "f00d" none⟩
        ⟨20, true, true, "f00d", false, true⟩).reloaded = true ∧
    (tick ⟨0, 0, manager_init true true "f00d" none⟩
        ⟨20, true, true, "f00d", false, true⟩).state.last_screen_update_time = 0 := by
  have h := c3_only_time_fault_reloads ⟨0, 0, manager_init true true "f00d" none⟩
    ⟨20, true, true, "f00d", false, true⟩ (by norm_num [DISPLAY_UPDATE_INTERVAL])
  exact ⟨h.1, h.2.1 rfl⟩

/-- C5 counterexample: at an elapsed time of exactly DISCOVERY_PERIOD
(360 s, which satisfies "at least DISCOVERY_PERIOD"), the tick does NOT run
sensor re-discovery: the source guard is the strict comparison
`current_time - last_discovery_time > DISCOVERY_PERIOD`. -/
theorem c5_counterexample :
    (360 : ℚ) - 0 ≥ DISCOVERY_PERIOD ∧
    (tick ⟨0, 0, manager_init true true "f00d" none⟩
        ⟨360, true, true, "f00d", false, false⟩).discoveryRan = false := by
  constructor
  · norm_num [DISCOVERY_PERIOD]
  · norm_num [tick, tickDisplayPhase, manager_init, DISCOVERY_PERIOD, DISPLAY_UPDATE_INTERVAL]

/-- C5 amended: on every scheduler tick, sensor re-discovery (teardown and
re-initialisation of all drivers) runs exactly when the elapsed monotonic
time since last_discovery_time STRICTLY exceeds DISCOVERY_PERIOD (360 s),
after which last_discovery_time is reset to the current time; at elapsed
time exactly 360 s it does not run (see the counterexample), while 359.9 s
does not and 360.1 s does trigger it (see the witness). -/
theorem c5_discovery_runs_iff_strictly_past_period (s : SchedState) (env : TickEnv) :
    ((tick s env).discoveryRan = true ↔
      env.current_time - s.last_discovery_time > DISCOVERY_PERIOD) ∧
    ((tick s env).state.last_discovery_time =
      if env.current_time - s.last_discovery_time > DISCOVERY_PERIOD
      then env.current_time else s.last_discovery_time) ∧
    ((tick s env).state.manager =
      if env.current_time - s.last_discovery_time > DISCOVERY_PERIOD
      then manager_init env.bmeInitOk env.scdInitOk env.scdSerial s.manager.bme680_metrics
      else s.manager) := by
  unfold tick
  by_cases hd : env.current_time - s.last_discovery_time > DISCOVERY_PERIOD
  · rw [if_pos hd]
    have h := tickDisplayPhase_fields
      { s with
          manager := manager_init env.bmeInitOk env.scdInitOk env.scdSerial
            s.manager.bme680_metrics
          last_discovery_time := env.current_time }
      env true
    refine ⟨?_, ?_, ?_⟩
    · rw [h.1]; simp [hd]
    · rw [h.2.1]; simp [hd]
    · rw [h.2.2]; simp [hd]
  · rw [if_neg hd]
    have h := tickDisplayPhase_fields s env false
    refine ⟨?_, ?_, ?_⟩
    · rw [h.1]; simp [hd]
    · rw [h.2.1]; simp [hd]
    · rw [h.2.2]; simp [hd]

theorem c5_witness :
    (tick ⟨0, 0, manager_init true true "f00d" none⟩
        ⟨3601 / 10, true, true, "f00d", false, false⟩).discoveryRan = true ∧
    (tick ⟨0, 0, manager_init true true "f00d" none⟩
        ⟨3599 / 10, true, true, "f00d", false, false⟩).discoveryRan = false := by
  constructor
  · exact (c5_discovery_runs_iff_strictly_past_period
      ⟨0, 0, manager_init true true "f00d" none⟩
      ⟨3601 / 10, true, true, "f00d", false, false⟩).1.mpr
      (by norm_num [DISCOVERY_PERIOD])
  · have h := (c5_discovery_runs_iff_strictly_past_period
      ⟨0, 0, manager_init true true "f00d" none⟩
      ⟨3599 / 10, true, true, "f00d", false, false⟩).1
    have hno : ¬((3599 : ℚ) / 10 - 0 > DISCOVERY_PERIOD) := by norm_num [DISCOVERY_PERIOD]
    cases hb : (tick ⟨0, 0, manager_init true true "f00d" none⟩
        ⟨3599 / 10, true, true, "f00d", false, false⟩).discoveryRan
    · rfl
    · exact absurd (h.mp hb) hno

/-- C9 counterexample: a SensorMetric is NOT immutable once constructed: the
sensor_info measurement is constructed in read_bme680 with labels
`[("sensor_name", "BME680")]`, yet the returned set contains it with a
labels dict that was mutated after construction by the
`metric.labels["sensor_type"] = "bme680"` loop. -/
theorem c9_counterexample :
    (⟨"sensor_info", "Sensor info", "gauge", 1,
        [("sensor_name", "BME680"), ("sensor_type", "bme680")]⟩ : SensorMetric)
      ∈ (read_bme680 (manager_init true true "f00d" none) 5 (.ok ⟨21, 45, 1012, 100⟩)).1 ∧
    addSensorTypeLabel "bme680"
        (⟨"sensor_info", "Sensor info", "gauge", 1, [("sensor_name", "BME680")]⟩ : SensorMetric)
      ≠ ⟨"sensor_info", "Sensor info", "gauge", 1, [("sensor_name", "BME680")]⟩ := by
  constructor <;> decide

/-- C9 amended: the name, description, kind and value of a Measurement are
never modified after construction, and the only post-construction mutation
the program performs is the label-dict write that sets the sensor_type key:
every measurement a read returns is the image of a constructed (or cached)
measurement under exactly that label write, which preserves the other four
fields. -/
theorem c9_only_labels_mutated_after_construction
    (s : ManagerState) (t u : ℚ) (aB : Except String BMEReading) (aS : SCDAttempt) :
    (∀ (st : String) (m : SensorMetric),
      (addSensorTypeLabel st m).name = m.name ∧
      (addSensorTypeLabel st m).description = m.description ∧
      (addSensorTypeLabel st m).type = m.type ∧
      (addSensorTypeLabel st m).value = m.value ∧
      (addSensorTypeLabel st m).labels = setLabel m.labels "sensor_type" st) ∧
    (∀ m ∈ (read_bme680 s t aB).1, ∃ m0, m = addSensorTypeLabel "bme680" m0) ∧
    (∀ m ∈ (read_scd4x s u aS).1, ∃ m0, m = addSensorTypeLabel "scd4x" m0) := by
  refine ⟨fun st m => ⟨rfl, rfl, rfl, rfl, rfl⟩, ?_, ?_⟩
  · intro m hm
    obtain ⟨pre, hpre⟩ := read_bme680_result_shape s t aB
    rw [hpre] at hm
    obtain ⟨m0, _, rfl⟩ := List.mem_map.mp hm
    exact ⟨m0, rfl⟩
  · intro m hm
    obtain ⟨pre, hpre⟩ := read_scd4x_result_shape s u aS
    rw [hpre] at hm
    obtain ⟨m0, _, rfl⟩ := List.mem_map.mp hm
    exact ⟨m0, rfl⟩

theorem c9_witness :
    ∃ m0, (⟨"sensor_temperature_celsius", "Temperature in Celsius", "gauge", 21,
      [("sensor_type", "bme680")]⟩ : SensorMetric) = addSensorTypeLabel "bme680" m0 := by
  exact (c9_only_labels_mutated_after_construction (manager_init true true "f00d" none)
    5 6 (.ok ⟨21, 45, 1012, 100⟩) .notReady).2.1 _ (by decide)

/-- C2 counterexample: a /metrics response in which a metric name appears
with its HELP metadata line more than once.  With both sensors present and
reading successfully, sensor_temperature_celsius is produced by both
schemas, and the handler emits its HELP line once per measurement — twice in
the same response. -/
theorem c2_counterexample :
    1 < countOcc "# HELP sensor_temperature_celsius "
      (metrics_handler_text
        (read_metrics (manager_init true true "f00d" none) 5 (.ok ⟨21, 45, 1012, 100⟩)
          6 (.ready 612 22 47)).1
        0 [⟨40, 240000000⟩] 100 105 50 [("board_id", "feather")]) := by
  rw [show (read_metrics (manager_init true true "f00d" none) 5 (.ok ⟨21, 45, 1012, 100⟩)
        6 (.ready 612 22 47)).1 =
      [ ⟨"sensor_temperature_celsius", "Temperature in Celsius", "gauge", 21, [("sensor_type", "bme680")]⟩
      , ⟨"sensor_humidity_percent", "Relative humidity in percent", "gauge", 45, [("sensor_type", "bme680")]⟩
      , ⟨"sensor_pressure_hpa", "Pressure in hectopascal", "gauge", 1012, [("sensor_type", "bme680")]⟩
      , ⟨"sensor_gas_ohms", "Gas resistance in ohms", "gauge", 100, [("sensor_type", "bme680")]⟩
      , ⟨"last_measurement_time", "Last measurement time", "gauge", 5, [("sensor_type", "bme680")]⟩
      , ⟨"sensor_info", "Sensor info", "gauge", 1, [("sensor_name", "BME680"), ("sensor_type", "bme680")]⟩
      , ⟨"sensor_co2_ppm", "CO2 in parts per million", "gauge", 612, [("sensor_type", "scd4x")]⟩
      , ⟨"sensor_temperature_celsius", "Temperature in Celsius", "gauge", 22, [("sensor_type", "scd4x")]⟩
      , ⟨"sensor_humidity_percent", "Relative humidity in percent", "gauge", 47, [("sensor_type", "scd4x")]⟩
      , ⟨"last_measurement_time", "Last measurement time", "gauge", 6, [("sensor_type", "scd4x")]⟩
      , ⟨"sensor_info", "Sensor info", "gauge", 1,
          [("sensor_name", "SCD4X"), ("serial_number", "f00d"), ("sensor_type", "scd4x")]⟩ ]
    from by decide]
  simp only [metrics_handler_text, expositionLines, List.foldl_cons, List.foldl_nil]
  iterate 27 refine lt_of_lt_of_le ?_ (countOcc_le_append_left _ _ _)
  refine lt_of_lt_of_le (show (1 : ℕ) < 1 + 1 by omega)
    (le_trans (Nat.add_le_add ?_ ?_) (countOcc_append_ge _ _ _))
  · iterate 20 refine le_trans ?_ (countOcc_le_append_left _ _ _)
    decide
  · decide

/-- C2 amended: the exporter emits HELP/TYPE metadata once per measurement,
not once per metric name, and performs no deduplication; since the two
sensors' schemas share metric names (sensor_temperature_celsius among them),
a response with both sensors reading successfully contains two measurements
named sensor_temperature_celsius and its HELP line appears more than once.
Avoiding duplicates would be the caller's responsibility, which the fixed
two-sensor schema does not meet. -/
theorem c2_help_and_type_emitted_per_measurement :
    ((read_metrics (manager_init true true "c0ffee" none) 7 (.ok ⟨25, 40, 1013, 120⟩)
        8 (.ready 550 26 41)).1.filter
      (fun m => m.name == "sensor_temperature_celsius")).length = 2 ∧
    1 < countOcc "# HELP sensor_temperature_celsius "
      (metrics_handler_text
        (read_metrics (manager_init true true "c0ffee" none) 7 (.ok ⟨25, 40, 1013, 120⟩)
          8 (.ready 550 26 41)).1
        0 [⟨45, 240000000⟩] 200 205 150 [("board_id", "feather")]) := by
  constructor
  · decide
  · rw [show (read_metrics (manager_init true true "c0ffee" none) 7 (.ok ⟨25, 40, 1013, 120⟩)
          8 (.ready 550 26 41)).1 =
        [ ⟨"sensor_temperature_celsius", "Temperature in Celsius", "gauge", 25, [("sensor_type", "bme680")]⟩
        , ⟨"sensor_humidity_percent", "Relative humidity in percent", "gauge", 40, [("sensor_type", "bme680")]⟩
        , ⟨"sensor_pressure_hpa", "Pressure in hectopascal", "gauge", 1013, [("sensor_type", "bme680")]⟩
        , ⟨"sensor_gas_ohms", "Gas resistance in ohms", "gauge", 120, [("sensor_type", "bme680")]⟩
        , ⟨"last_measurement_time", "Last measurement time", "gauge", 7, [("sensor_type", "bme680")]⟩
        , ⟨"sensor_info", "Sensor info", "gauge", 1, [("sensor_name", "BME680"), ("sensor_type", "bme680")]⟩
        , ⟨"sensor_co2_ppm", "CO2 in parts per million", "gauge", 550, [("sensor_type", "scd4x")]⟩
        , ⟨"sensor_temperature_celsius", "Temperature in Celsius", "gauge", 26, [("sensor_type", "scd4x")]⟩
        , ⟨"sensor_humidity_percent", "Relative humidity in percent", "gauge", 41, [("sensor_type", "scd4x")]⟩
        , ⟨"last_measurement_time", "Last measurement time", "gauge", 8, [("sensor_type", "scd4x")]⟩
        , ⟨"sensor_info", "Sensor info", "gauge", 1,
            [("sensor_name", "SCD4X"), ("serial_number", "c0ffee"), ("sensor_type", "scd4x")]⟩ ]
      from by decide]
    simp only [metrics_handler_text, expositionLines, List.foldl_cons, List.foldl_nil]
    iterate 27 refine lt_of_lt_of_le ?_ (countOcc_le_append_left _ _ _)
    refine lt_of_lt_of_le (show (1 : ℕ) < 1 + 1 by omega)
      (le_trans (Nat.add_le_add ?_ ?_) (countOcc_append_ge _ _ _))
    · iterate 20 refine le_trans ?_ (countOcc_le_append_left _ _ _)
      decide
    · decide

/-- C4 counterexample: frequency is not the only deviation from 3-decimal
fixed-point formatting.  The cpu-temperature gauge sample is rendered with
`%0.1f`: with a cpu temperature of exactly 21, the response contains the
sample line valued `21.0`, although the 3-decimal rendering of 21 is
`21.000`. -/
theorem c4_counterexample :
    fmtFixed 3 21 = "21.000" ∧
    0 < countOcc "microcontroller_cpu_temperature_celsius\x7bcpu=\"0\"\x7d 21.0\n"
      (metrics_handler_text
        (read_metrics (manager_init true true "f00d" none) 5 (.ok ⟨21, 45, 1012, 100⟩)
          6 (.ready 612 22 47)).1
        21 [⟨21, 240000000⟩] 100 105 50 [("board_id", "feather")]) := by
  constructor
  · decide
  · simp only [metrics_handler_text]
    iterate 12 refine lt_of_lt_of_le ?_ (countOcc_le_append_left _ _ _)
    refine lt_of_lt_of_le ?_ (countOcc_le_append_right _ _ _)
    decide

/-- C4 amended: gauge sample values are rendered fixed-point with 3 decimal
places (e.g. a sensor temperature of 21 renders as 21.000, and so does the
measurement-time gauge), with three exceptions rather than one: cpu
frequency is rendered as an integer, cpu temperature is rendered with one
decimal place, and the microcontroller_info sample value is the literal `1`. -/
theorem c4_formatting_and_its_exceptions :
    0 < countOcc "sensor_temperature_celsius\x7bsensor_type=\"bme680\"\x7d 21.000\n"
      (metrics_handler_text
        (read_metrics (manager_init true true "f00d" none) 5 (.ok ⟨21, 45, 1012, 100⟩)
          6 (.ready 612 22 47)).1
        21 [⟨21, 240000000⟩] 100 105 50 [("board_id", "feather")]) ∧
    0 < countOcc "microcontroller_measurement_time_seconds 21.000\n"
      (metrics_handler_text
        (read_metrics (manager_init true true "f00d" none) 5 (.ok ⟨21, 45, 1012, 100⟩)
          6 (.ready 612 22 47)).1
        21 [⟨21, 240000000⟩] 100 105 50 [("board_id", "feather")]) ∧
    0 < countOcc "microcontroller_cpu_frequency_hz\x7bcpu=\"0\"\x7d 240000000\n"
      (metrics_handler_text
        (read_metrics (manager_init true true "f00d" none) 5 (.ok ⟨21, 45, 1012, 100⟩)
          6 (.ready 612 22 47)).1
        21 [⟨21, 240000000⟩] 100 105 50 [("board_id", "feather")]) ∧
    0 < countOcc "microcontroller_info\x7bboard_id=\"feather\"\x7d 1\n"
      (metrics_handler_text
        (read_metrics (manager_init true true "f00d" none) 5 (.ok ⟨21, 45, 1012, 100⟩)
          6 (.ready 612 22 47)).1
        21 [⟨21, 240000000⟩] 100 105 50 [("board_id", "feather")]) ∧
    fmtFixed 1 21 = "21.0" ∧ fmtFixed 3 (mkRat 215 10) = "21.500" := by
  refine ⟨?_, ?_, ?_, ?_, by decide, by decide⟩
  · rw [show (read_metrics (manager_init true true "f00d" none) 5 (.ok ⟨21, 45, 1012, 100⟩)
          6 (.ready 612 22 47)).1 =
        [ ⟨"sensor_temperature_celsius", "Temperature in Celsius", "gauge", 21, [("sensor_type", "bme680")]⟩
        , ⟨"sensor_humidity_percent", "Relative humidity in percent", "gauge", 45, [("sensor_type", "bme680")]⟩
        , ⟨"sensor_pressure_hpa", "Pressure in hectopascal", "gauge", 1012, [("sensor_type", "bme680")]⟩
        , ⟨"sensor_gas_ohms", "Gas resistance in ohms", "gauge", 100, [("sensor_type", "bme680")]⟩
        , ⟨"last_measurement_time", "Last measurement time", "gauge", 5, [("sensor_type", "bme680")]⟩
        , ⟨"sensor_info", "Sensor info", "gauge", 1, [("sensor_name", "BME680"), ("sensor_type", "bme680")]⟩
        , ⟨"sensor_co2_ppm", "CO2 in parts per million", "gauge", 612, [("sensor_type", "scd4x")]⟩
        , ⟨"sensor_temperature_celsius", "Temperature in Celsius", "gauge", 22, [("sensor_type", "scd4x")]⟩
        , ⟨"sensor_humidity_percent", "Relative humidity in percent", "gauge", 47, [("sensor_type", "scd4x")]⟩
        , ⟨"last_measurement_time", "Last measurement time", "gauge", 6, [("sensor_type", "scd4x")]⟩
        , ⟨"sensor_info", "Sensor info", "gauge", 1,
            [("sensor_name", "SCD4X"), ("serial_number", "f00d"), ("sensor_type", "scd4x")]⟩ ]
      from by decide]
    simp only [metrics_handler_text, expositionLines, List.foldl_cons, List.foldl_nil]
    iterate 46 refine lt_of_lt_of_le ?_ (countOcc_le_append_left _ _ _)
    refine lt_of_lt_of_le ?_ (countOcc_le_append_right _ _ _)
    decide
  · simp only [metrics_handler_text]
    iterate 13 refine lt_of_lt_of_le ?_ (countOcc_le_append_left _ _ _)
    refine lt_of_lt_of_le ?_ (countOcc_le_append_right _ _ _)
    decide
  · simp only [metrics_handler_text]
    iterate 12 refine lt_of_lt_of_le ?_ (countOcc_le_append_left _ _ _)
    refine lt_of_lt_of_le ?_ (countOcc_le_append_right _ _ _)
    decide
  · simp only [metrics_handler_text]
    refine lt_of_lt_of_le ?_ (countOcc_le_append_right _ _ _)
    decide

theorem c10_witness :
    (read_bme680 ((read_bme680 (manager_init true true "f00d" none) 5
        (.ok ⟨21, 45, 1012, 100⟩)).2) 9 (.error "boom")).2.bme680_last_measurement_time = 9 ∧
    (⟨"last_measurement_time", "Last measurement time", "gauge", 5,
        [("sensor_type", "bme680")]⟩ : SensorMetric)
      ∈ (read_bme680 ((read_bme680 (manager_init true true "f00d" none) 5
        (.ok ⟨21, 45, 1012, 100⟩)).2) 9 (.error "boom")).1 := by
  have h := c10_fault_advances_timestamp_despite_cached_metric
    (manager_init true true "f00d" none) ⟨21, 45, 1012, 100⟩ 5 9 "boom"
    (by decide) (by decide)
  exact ⟨h.1, h.2.1⟩
